import Mathlib

/-!
Verification development for the Electronic_Library repository.

The two subsystems under specification are embedded shallowly:

* the export pipeline of `library/utils.py` (`DataExporter`) together with
  the dispatching view `export_data` of `library/views.py`;
* the backup job of `library/tasks.py` (`backup_database`,
  `upload_to_cloud`, `cleanup_old_backups`).

Python values flowing through the exporter are modelled by the inductive
type `PyValue`; Django model instances are attribute maps (`Item`), and
`getattr(obj, name, default)` becomes `getattrD`.  External effects of the
backup job (directory creation, the `pg_dump` subprocess, `os.path.getsize`,
cloud uploads, `os.remove`) are parameters of an environment record, so that
`backup_database` is a pure function from the environment to the run's
observable outcome; an exception that the Python code does not catch is an
`Except.error` result.
-/

namespace ElectronicLibrary

/-- A Python `decimal.Decimal` as observed by the exporter.  The library
type is external to the repository, so it is kept abstract up to the two
renderings the code uses: `canonical` is Python's `str(d)` and
`twoDigits` is `f"{d:.2f}"`. -/
structure PyDecimal where
  canonical : String
  twoDigits : String
deriving DecidableEq, Repr

/-- Values that `getattr` can yield on an exported model instance:
a string (also used for dates rendered as strings), an integer, a
`Decimal`, `None`, or a many-to-many related manager (an object with an
`all()` method), whose elements are the related objects' string forms. -/
inductive PyValue where
  | vStr : String → PyValue
  | vInt : Int → PyValue
  | vDecimal : PyDecimal → PyValue
  | vNone : PyValue
  | vMany : List PyValue → PyValue

/-- Python `str(value)`.  `str` of a related manager has an opaque object
representation; no claim depends on its exact text. -/
def pyStr : PyValue → String
  | .vStr s => s
  | .vInt n => toString n
  | .vDecimal d => d.canonical
  | .vNone => "None"
  | .vMany _ => "<related manager>"

/-- A Django model instance, as the exporter sees it: a map from attribute
name to value. -/
abbrev Item := List (String × PyValue)

/-- Python `getattr(item, name, default)`. -/
def getattrD (item : Item) (name : String) (dflt : PyValue) : PyValue :=
  match item.find? (fun p => p.1 == name) with
  | some p => p.2
  | none => dflt

/-- Python `str.lower()` on one character, restricted to the Latin and
Cyrillic letters occurring in the repository's column names. -/
def pyLowerChar (c : Char) : Char :=
  if 0x41 ≤ c.toNat ∧ c.toNat ≤ 0x5A then Char.ofNat (c.toNat + 32)
  else if 0x410 ≤ c.toNat ∧ c.toNat ≤ 0x42F then Char.ofNat (c.toNat + 32)
  else if c.toNat = 0x401 then Char.ofNat 0x451
  else c

/-- Python `column.lower().replace(' ', '_')`: the attribute name that
`export_to_pdf`, `export_to_docx` and `export_to_xlsx` derive from a
display column name (utils.py lines 83, 139, 173).  Replacing the
single-character pattern `' '` by `'_'` is a character map; both maps are
taken over the string's character list. -/
def attrName (column : String) : String :=
  String.mk ((column.data.map pyLowerChar).map (fun c => if c = ' ' then '_' else c))

/-- One CSV body cell (utils.py lines 46-56): `getattr(item, field, '')`,
then many-to-many values joined with `', '`, `Decimal` via `str`, `None`
to the empty string, and finally `str(value)`. -/
def csvCell (item : Item) (field : String) : String :=
  match getattrD item field (.vStr "") with
  | .vMany vs => String.intercalate ", " (vs.map pyStr)
  | .vDecimal d => d.canonical
  | .vNone => ""
  | v => pyStr v

/-- `DataExporter.export_to_csv` (utils.py lines 33-60) as the sequence of
records handed to `csv.writer.writerow`: the display-name header first,
then one record per queryset row with the cells in `fields` order. -/
def export_to_csv (queryset : List Item) (fields : List String)
    (field_names : List String) : List (List String) :=
  field_names :: queryset.map (fun item => fields.map (csvCell item))

/-- One PDF body cell (utils.py lines 82-93): the attribute is looked up
by the name derived from the display column; many-to-many values keep only
the first three elements; `Decimal` is formatted to two fraction digits. -/
def pdfCell (item : Item) (column : String) : String :=
  match getattrD item (attrName column) (.vStr "") with
  | .vMany vs => String.intercalate ", " ((vs.take 3).map pyStr)
  | .vDecimal d => d.twoDigits
  | .vNone => ""
  | v => pyStr v

/-- The table data built by `DataExporter.export_to_pdf`
(utils.py lines 78-94): header row of display columns, then body rows. -/
def export_to_pdf_data (queryset : List Item) (columns : List String) :
    List (List String) :=
  columns :: queryset.map (fun item => columns.map (pdfCell item))

/-- One DOCX body cell (utils.py lines 138-141): `str(getattr(item,
attr_name, ''))`, with no many-to-many, `Decimal` or `None` special
casing. -/
def docxCell (item : Item) (column : String) : String :=
  pyStr (getattrD item (attrName column) (.vStr ""))

/-- The table built by `DataExporter.export_to_docx`
(utils.py lines 129-141): one header row of display columns, one row per
record. -/
def export_to_docx_table (queryset : List Item) (columns : List String) :
    List (List String) :=
  columns :: queryset.map (fun item => columns.map (docxCell item))

/-- The data-cell grid written by `DataExporter.export_to_xlsx`
(utils.py lines 170-175): raw attribute values, looked up by the derived
attribute name, written from worksheet row 5 on. -/
def export_to_xlsx_cells (queryset : List Item) (columns : List String) :
    List (List PyValue) :=
  queryset.map (fun item => columns.map (fun c => getattrD item (attrName c) (.vStr "")))

/-- The outcome of the `export_data` view: which response the dispatch in
views.py lines 109-153 returns. -/
inductive ExportResponse where
  | json | csv | pdf | docx | xlsx
  | invalidModel
  | invalidFormat
deriving DecidableEq, Repr

/-- Python `request.GET.get(key, default)` over the query parameters. -/
def getParam (params : List (String × String)) (key dflt : String) : String :=
  match params.find? (fun p => p.1 == key) with
  | some p => p.2
  | none => dflt

/-- The dispatch structure of the `export_data` view (views.py lines
109-153): the export type defaults to `'json'` and the model type to
`'books'`; an unknown model is rejected first, then the format chain runs,
falling through to the invalid-format response. -/
def export_data (params : List (String × String)) : ExportResponse :=
  let export_type := getParam params "type" "json"
  let model_type := getParam params "model" "books"
  if model_type = "books" ∨ model_type = "users" ∨ model_type = "loans" then
    if export_type = "json" then .json
    else if export_type = "csv" then .csv
    else if export_type = "pdf" then .pdf
    else if export_type = "docx" then .docx
    else if export_type = "xlsx" then .xlsx
    else .invalidFormat
  else .invalidModel

/-- A directory entry of the backup directory as seen by `os.listdir`,
with its `os.path.getmtime` value and whether `os.path.isfile` holds. -/
structure FsEntry where
  name : String
  mtime : Nat
  isFile : Bool
deriving DecidableEq, Repr

/-- Python `name.startswith(pre)`, computed on the character list. -/
def pyStartsWith (s pre : String) : Bool :=
  pre.data.isPrefixOf s.data

/-- Python `name.endswith(suf)`, computed on the character list. -/
def pyEndsWith (s suf : String) : Bool :=
  suf.data.isSuffixOf s.data

/-- The filter of `cleanup_old_backups` (tasks.py lines 120-124): regular
files whose name starts with `backup_` and ends with `.sql`. -/
def matchingBackups (entries : List FsEntry) : List FsEntry :=
  entries.filter fun e => pyStartsWith e.name "backup_" && pyEndsWith e.name ".sql" && e.isFile

/-- Ascending modification-time order used by the retention sort. -/
def mtimeLe (a b : FsEntry) : Prop :=
  a.mtime ≤ b.mtime

instance : DecidableRel mtimeLe :=
  fun a b => Nat.decLe a.mtime b.mtime

instance : IsTotal FsEntry mtimeLe :=
  ⟨fun a b => Nat.le_total a.mtime b.mtime⟩

instance : IsTrans FsEntry mtimeLe :=
  ⟨fun _ _ _ => Nat.le_trans⟩

/-- Python `lst[:-k]`: for `k = 0` this is the empty slice `lst[:0]`,
otherwise everything but the last `k` elements. -/
def pyDropLast {α : Type} (l : List α) (k : Nat) : List α :=
  if k = 0 then [] else l.take (l.length - k)

/-- The deletion loop of `cleanup_old_backups` (tasks.py lines 132-134):
`os.remove` each path in order; a failing removal raises, aborting the
rest of the loop (the exception is caught by the surrounding handler).
Returns the paths actually removed. -/
def deleteLoop (removeOk : String → Bool) : List String → List String
  | [] => []
  | f :: rest => if removeOk f then f :: deleteLoop removeOk rest else []

/-- `cleanup_old_backups` (tasks.py lines 114-137): list the matching
backup files, sort ascending by modification time (Python's `list.sort`
is stable, and a stable sort's output is unique, so it is modelled by
insertion sort), and when more than `keep_count` remain delete all but
the last `keep_count`.  The whole body runs inside `try/except`, so the
function itself never raises; the result is the list of deleted paths
(`os.path.join(backup_dir, name)` is modelled as `backup_dir ++ "/" ++ name`). -/
def cleanup_old_backups (backup_dir : String) (entries : List FsEntry)
    (keep_count : Nat) (removeOk : String → Bool) : List String :=
  let backup_files := (matchingBackups entries).insertionSort mtimeLe
  if keep_count < backup_files.length then
    deleteLoop removeOk
      ((pyDropLast backup_files keep_count).map (fun e => backup_dir ++ "/" ++ e.name))
  else []

/-- The two remote storage backends of `upload_to_cloud`. -/
inductive Backend where
  | yandex | s3
deriving DecidableEq, Repr

/-- One attempted backend upload and whether it succeeded. -/
structure UploadAttempt where
  backend : Backend
  ok : Bool
deriving DecidableEq, Repr

/-- Which backend credentials are present on `settings`
(`hasattr(settings, 'YANDEX_DISK_TOKEN')`, `hasattr(settings,
'AWS_ACCESS_KEY_ID')`). -/
structure CloudConfig where
  yandexToken : Option String
  awsConfigured : Bool
deriving DecidableEq, Repr

/-- Whether each backend's upload call would succeed (an unsuccessful call
raises inside its `try` block and is caught). -/
structure CloudEnv where
  yandexUploadOk : Bool
  s3UploadOk : Bool
deriving DecidableEq, Repr

/-- The S3 half of `upload_to_cloud` (tasks.py lines 94-112): if AWS
credentials are configured, attempt the upload; success returns `True`,
failure is caught and printed; otherwise fall through to `return False`. -/
def s3Attempt (cfg : CloudConfig) (env : CloudEnv)
    (prior : List UploadAttempt) : Bool × List UploadAttempt :=
  if cfg.awsConfigured then
    if env.s3UploadOk then (true, prior ++ [⟨.s3, true⟩])
    else (false, prior ++ [⟨.s3, false⟩])
  else (false, prior)

/-- `upload_to_cloud` (tasks.py lines 77-112): try Yandex.Disk first when
its token is configured, returning `True` immediately on success; on a
caught failure fall through to the S3 attempt.  Besides the Python return
value, the model records the list of attempts made. -/
def upload_to_cloud (cfg : CloudConfig) (env : CloudEnv) :
    Bool × List UploadAttempt :=
  match cfg.yandexToken with
  | some _ =>
    if env.yandexUploadOk then (true, [⟨.yandex, true⟩])
    else s3Attempt cfg env [⟨.yandex, false⟩]
  | none => s3Attempt cfg env []

/-- The `settings.DATABASES['default']` fields read by `backup_database`. -/
structure DbSettings where
  host : String
  user : String
  name : String
  password : String
deriving DecidableEq, Repr

/-- Outcome of `subprocess.run` on the dump command: exit code and
captured standard error. -/
structure DumpResult where
  returncode : Int
  stderr : String
deriving DecidableEq, Repr

/-- The `pg_dump` command line built in tasks.py lines 24-30. -/
def dumpCmd (db : DbSettings) (backup_file : String) : List String :=
  ["pg_dump", "-h", db.host, "-U", db.user, "-d", db.name, "-f", backup_file]

/-- One row of the `BackupLog` model as created by `backup_database`;
fields omitted from a `create` call are `none`. -/
structure BackupLogRecord where
  file_path : String
  file_size : Option Nat
  status : String
  error_message : Option String
  execution_time : Option Nat
deriving DecidableEq, Repr

/-- The external world of one `backup_database` run: the formatted
timestamp, whether `os.makedirs` raises (tasks.py line 15, outside the
`try` block), whether an exception is raised inside the `try` block
before the subprocess completes (reading `settings.DATABASES` or spawning
`pg_dump`), the subprocess outcome, the wall-clock duration in seconds,
the result of `os.path.getsize` on the artifact, the cloud configuration,
and the backup directory contents for retention. -/
structure OrchestratorEnv where
  timestamp : String
  makedirsExc : Option String
  preSubprocessExc : Option String
  db : DbSettings
  runResult : DumpResult
  duration : Nat
  getsize : Except String Nat
  cloudCfg : CloudConfig
  cloudEnv : CloudEnv
  dirEntries : List FsEntry
  removeOk : String → Bool

/-- The observable outcome of one `backup_database` run: the `BackupLog`
rows created in order, the dump command actually invoked (with the value
placed in `PGPASSWORD`), the upload attempts, the retention deletions
(`none` when cleanup never ran), and the task's return string. -/
structure RunSummary where
  logs : List BackupLogRecord
  invokedCmd : Option (List String)
  pgpassword : Option String
  uploadAttempts : List UploadAttempt
  cleanupDeleted : Option (List String)
  returnValue : String
deriving DecidableEq, Repr

/-- `backup_database` (tasks.py lines 9-75).  The artifact path is
computed, and the backup directory created, before the `try` block: a
`makedirs` failure propagates as an uncaught exception (`Except.error`).
Inside the `try`, any exception is converted into an error `BackupLog`
carrying the precomputed path.  On exit code 0 the artifact is stat-ed, a
success row is created, the upload and the retention cleanup run; on a
non-zero exit an error row with the captured standard error is created
and the run returns. -/
def backup_database (media_root : String) (env : OrchestratorEnv) :
    Except String RunSummary :=
  let backup_dir := media_root ++ "/backups"
  match env.makedirsExc with
  | some msg => .error msg
  | none =>
    let backup_file := backup_dir ++ "/backup_" ++ env.timestamp ++ ".sql"
    match env.preSubprocessExc with
    | some msg =>
      .ok { logs := [⟨backup_file, none, "error", some msg, none⟩],
            invokedCmd := none, pgpassword := none,
            uploadAttempts := [], cleanupDeleted := none,
            returnValue := "Backup failed: " ++ msg }
    | none =>
      let cmd := dumpCmd env.db backup_file
      if env.runResult.returncode = 0 then
        match env.getsize with
        | .error msg =>
          .ok { logs := [⟨backup_file, none, "error", some msg, none⟩],
                invokedCmd := some cmd, pgpassword := some env.db.password,
                uploadAttempts := [], cleanupDeleted := none,
                returnValue := "Backup failed: " ++ msg }
        | .ok sz =>
          let up := upload_to_cloud env.cloudCfg env.cloudEnv
          let deleted := cleanup_old_backups backup_dir env.dirEntries 30 env.removeOk
          .ok { logs := [⟨backup_file, some sz, "success", none, some env.duration⟩],
                invokedCmd := some cmd, pgpassword := some env.db.password,
                uploadAttempts := up.2, cleanupDeleted := some deleted,
                returnValue := "Backup created successfully: " ++ backup_file }
      else
        .ok { logs := [⟨backup_file, none, "error", some env.runResult.stderr, none⟩],
              invokedCmd := some cmd, pgpassword := some env.db.password,
              uploadAttempts := [], cleanupDeleted := none,
              returnValue := "Backup failed: " ++ env.runResult.stderr }

/-- Claim C1: on a book row whose `title` attribute is set, CSV (which
reads the source field path `title`) renders the stored value, while
PDF, DOCX and XLSX (which read the attribute name derived from the
display name, here `название`) miss the attribute and render the empty
string — so the cross-format (row, display-name) → value equality fails
at this input, beyond the allowed lossy rules. -/
theorem export_cell_value_divergence :
    export_to_csv [[("title", PyValue.vStr "Tri Tovarishcha")]] ["title"] ["Название"]
      = [["Название"], ["Tri Tovarishcha"]] ∧
    export_to_pdf_data [[("title", PyValue.vStr "Tri Tovarishcha")]] ["Название"]
      = [["Название"], [""]] ∧
    export_to_docx_table [[("title", PyValue.vStr "Tri Tovarishcha")]] ["Название"]
      = [["Название"], [""]] ∧
    export_to_xlsx_cells [[("title", PyValue.vStr "Tri Tovarishcha")]] ["Название"]
      = [[PyValue.vStr ""]] :=
  ⟨rfl, rfl, rfl, rfl⟩

/-- Claim C2 (counterexample): an exception in step 1 — `os.makedirs`,
which runs before the `try` block of `backup_database` — propagates out
of the task uncaught, and no `BackupLog` row is created, contradicting
the claim that every step-1 exception is caught and recorded. -/
theorem makedirs_exception_propagates :
    backup_database "media"
      { timestamp := "20240101_000000", makedirsExc := some "Permission denied",
        preSubprocessExc := none, db := ⟨"h", "u", "n", "p"⟩,
        runResult := ⟨0, ""⟩, duration := 0, getsize := .ok 1,
        cloudCfg := ⟨none, false⟩, cloudEnv := ⟨false, false⟩,
        dirEntries := [], removeOk := fun _ => true }
      = Except.error "Permission denied" := rfl

/-- Claim C2 (amended): an exception raised inside the `try` block before
the subprocess completes (step 2) is caught at the top level and recorded
as a `BackupLog` with status `error`, the exception's message, and the
precomputed artifact path; step-1 exceptions, by contrast, propagate. -/
theorem try_block_exception_logged (media_root m : String)
    (env : OrchestratorEnv) (hmk : env.makedirsExc = none)
    (hpre : env.preSubprocessExc = some m) :
    backup_database media_root env =
      .ok { logs := [⟨media_root ++ "/backups" ++ "/backup_" ++ env.timestamp ++ ".sql",
                      none, "error", some m, none⟩],
            invokedCmd := none, pgpassword := none,
            uploadAttempts := [], cleanupDeleted := none,
            returnValue := "Backup failed: " ++ m } := by
  simp [backup_database, hmk, hpre]

/-- Witness for `try_block_exception_logged` at a concrete environment. -/
theorem try_block_exception_logged_witness :
    backup_database "media"
      { timestamp := "20240101_000000", makedirsExc := none,
        preSubprocessExc := some "KeyError: default", db := ⟨"h", "u", "n", "p"⟩,
        runResult := ⟨0, ""⟩, duration := 0, getsize := .ok 1,
        cloudCfg := ⟨none, false⟩, cloudEnv := ⟨false, false⟩,
        dirEntries := [], removeOk := fun _ => true }
      = .ok { logs := [⟨"media/backups/backup_20240101_000000.sql",
                        none, "error", some "KeyError: default", none⟩],
              invokedCmd := none, pgpassword := none,
              uploadAttempts := [], cleanupDeleted := none,
              returnValue := "Backup failed: KeyError: default" } :=
  try_block_exception_logged "media" "KeyError: default" _ rfl rfl

/-- Claim C3 (counterexample): a request with no format value is not
rejected — `request.GET.get('type', 'json')` silently defaults it to the
JSON export. -/
theorem absent_format_defaults_to_json :
    export_data [("model", "books")] = ExportResponse.json ∧
    ExportResponse.json ≠ ExportResponse.invalidFormat :=
  ⟨rfl, by decide⟩

/-- Claim C3 (amended): a request whose model type is known and whose
format value is present but not one of the five known formats is rejected
with the invalid-format response; an absent format value instead defaults
silently to JSON. -/
theorem unknown_format_rejected (params : List (String × String))
    (hm : getParam params "model" "books" ∈ (["books", "users", "loans"] : List String))
    (hf : getParam params "type" "json" ∉
      (["json", "csv", "pdf", "docx", "xlsx"] : List String)) :
    export_data params = ExportResponse.invalidFormat := by
  simp only [List.mem_cons, List.mem_singleton, not_or, List.not_mem_nil, or_false] at hm hf
  obtain ⟨h1, h2, h3, h4, h5⟩ := hf
  rcases hm with h | h | h <;>
    simp [export_data, h, h1, h2, h3, h4, h5]

/-- Witness for `unknown_format_rejected` at a concrete request. -/
theorem unknown_format_rejected_witness :
    export_data [("type", "xml")] = ExportResponse.invalidFormat :=
  unknown_format_rejected [("type", "xml")] (by decide) (by decide)

/-- Claim C4: when the dump subprocess exits non-zero, the run creates
exactly one `BackupLog` row, with status `error` and the captured
standard error as the message, and stops: no upload attempt is made and
retention cleanup never runs. -/
theorem dump_failure_terminal (media_root : String) (env : OrchestratorEnv)
    (hmk : env.makedirsExc = none) (hpre : env.preSubprocessExc = none)
    (hrc : env.runResult.returncode ≠ 0) :
    backup_database media_root env =
      .ok { logs := [⟨media_root ++ "/backups" ++ "/backup_" ++ env.timestamp ++ ".sql",
                      none, "error", some env.runResult.stderr, none⟩],
            invokedCmd := some (dumpCmd env.db
              (media_root ++ "/backups" ++ "/backup_" ++ env.timestamp ++ ".sql")),
            pgpassword := some env.db.password,
            uploadAttempts := [], cleanupDeleted := none,
            returnValue := "Backup failed: " ++ env.runResult.stderr } := by
  simp [backup_database, hmk, hpre, hrc]

/-- Witness for `dump_failure_terminal` at a concrete environment. -/
theorem dump_failure_terminal_witness :
    backup_database "media"
      { timestamp := "20240101_000000", makedirsExc := none,
        preSubprocessExc := none, db := ⟨"h", "u", "n", "p"⟩,
        runResult := ⟨1, "pg_dump: connection refused"⟩, duration := 2,
        getsize := .ok 1, cloudCfg := ⟨some "t", true⟩, cloudEnv := ⟨true, true⟩,
        dirEntries := [], removeOk := fun _ => true }
      = .ok { logs := [⟨"media/backups/backup_20240101_000000.sql", none, "error",
                        some "pg_dump: connection refused", none⟩],
              invokedCmd := some ["pg_dump", "-h", "h", "-U", "u", "-d", "n", "-f",
                                  "media/backups/backup_20240101_000000.sql"],
              pgpassword := some "p",
              uploadAttempts := [], cleanupDeleted := none,
              returnValue := "Backup failed: pg_dump: connection refused" } :=
  dump_failure_terminal "media" _ rfl rfl (by decide)

/-- Claim C5: when the dump subprocess exits zero and the artifact stats
to a positive size, the run creates a `BackupLog` row with status
`success`, that positive size, the wall-clock duration in seconds, and
the precomputed artifact path (the successful `os.path.getsize` call at
that path being the code's evidence that the artifact exists there). -/
theorem dump_success_record (media_root : String) (env : OrchestratorEnv)
    (sz : Nat) (hmk : env.makedirsExc = none) (hpre : env.preSubprocessExc = none)
    (hrc : env.runResult.returncode = 0) (hsz : env.getsize = .ok sz)
    (hpos : 0 < sz) :
    backup_database media_root env =
      .ok { logs := [⟨media_root ++ "/backups" ++ "/backup_" ++ env.timestamp ++ ".sql",
                      some sz, "success", none, some env.duration⟩],
            invokedCmd := some (dumpCmd env.db
              (media_root ++ "/backups" ++ "/backup_" ++ env.timestamp ++ ".sql")),
            pgpassword := some env.db.password,
            uploadAttempts := (upload_to_cloud env.cloudCfg env.cloudEnv).2,
            cleanupDeleted := some (cleanup_old_backups (media_root ++ "/backups")
              env.dirEntries 30 env.removeOk),
            returnValue := "Backup created successfully: "
              ++ (media_root ++ "/backups" ++ "/backup_" ++ env.timestamp ++ ".sql") }
      ∧ 0 < sz := by
  refine ⟨?_, hpos⟩
  simp [backup_database, hmk, hpre, hrc, hsz]

/-- Witness for `dump_success_record` at a concrete environment. -/
theorem dump_success_record_witness :
    backup_database "media"
      { timestamp := "20240101_000000", makedirsExc := none,
        preSubprocessExc := none, db := ⟨"h", "u", "n", "p"⟩,
        runResult := ⟨0, ""⟩, duration := 2,
        getsize := .ok 2048, cloudCfg := ⟨none, false⟩, cloudEnv := ⟨false, false⟩,
        dirEntries := [], removeOk := fun _ => true }
      = .ok { logs := [⟨"media/backups/backup_20240101_000000.sql", some 2048,
                        "success", none, some 2⟩],
              invokedCmd := some ["pg_dump", "-h", "h", "-U", "u", "-d", "n", "-f",
                                  "media/backups/backup_20240101_000000.sql"],
              pgpassword := some "p",
              uploadAttempts := [], cleanupDeleted := some [],
              returnValue :=
                "Backup created successfully: media/backups/backup_20240101_000000.sql" }
      ∧ 0 < 2048 :=
  dump_success_record "media"
    { timestamp := "20240101_000000", makedirsExc := none,
      preSubprocessExc := none, db := ⟨"h", "u", "n", "p"⟩,
      runResult := ⟨0, ""⟩, duration := 2,
      getsize := .ok 2048, cloudCfg := ⟨none, false⟩, cloudEnv := ⟨false, false⟩,
      dirEntries := [], removeOk := fun _ => true }
    2048 rfl rfl rfl rfl (by decide)

/-- Attempt list of `upload_to_cloud` when the Yandex.Disk upload fails
and S3 is configured: the S3 attempt still happens. -/
theorem upload_attempts_after_yandex_failure (cfg : CloudConfig) (env : CloudEnv)
    (hy : cfg.yandexToken.isSome = true) (hyok : env.yandexUploadOk = false)
    (haws : cfg.awsConfigured = true) :
    (upload_to_cloud cfg env).2 = [⟨.yandex, false⟩, ⟨.s3, env.s3UploadOk⟩] := by
  obtain ⟨yt, aws⟩ := cfg
  obtain ⟨yok, sok⟩ := env
  cases yt <;> cases aws <;> cases yok <;> cases sok <;>
    simp_all [upload_to_cloud, s3Attempt]

/-- Claim C7: on a successful dump the success `BackupLog` row and the
retention cleanup are unconditional in the upload outcome — the statement
holds for every cloud environment, including failing backends — and a
caught Yandex.Disk failure does not abort the S3 attempt when S3 is
configured. -/
theorem upload_failure_nonfatal (media_root : String) (env : OrchestratorEnv)
    (sz : Nat) (hmk : env.makedirsExc = none) (hpre : env.preSubprocessExc = none)
    (hrc : env.runResult.returncode = 0) (hsz : env.getsize = .ok sz) :
    ∃ s, backup_database media_root env = .ok s ∧
      s.logs = [⟨media_root ++ "/backups" ++ "/backup_" ++ env.timestamp ++ ".sql",
                 some sz, "success", none, some env.duration⟩] ∧
      s.cleanupDeleted = some (cleanup_old_backups (media_root ++ "/backups")
        env.dirEntries 30 env.removeOk) ∧
      (env.cloudCfg.yandexToken.isSome = true →
       env.cloudEnv.yandexUploadOk = false →
       env.cloudCfg.awsConfigured = true →
       s.uploadAttempts = [⟨Backend.yandex, false⟩, ⟨Backend.s3, env.cloudEnv.s3UploadOk⟩]) := by
  have heq : backup_database media_root env =
      .ok { logs := [⟨media_root ++ "/backups" ++ "/backup_" ++ env.timestamp ++ ".sql",
                      some sz, "success", none, some env.duration⟩],
            invokedCmd := some (dumpCmd env.db
              (media_root ++ "/backups" ++ "/backup_" ++ env.timestamp ++ ".sql")),
            pgpassword := some env.db.password,
            uploadAttempts := (upload_to_cloud env.cloudCfg env.cloudEnv).2,
            cleanupDeleted := some (cleanup_old_backups (media_root ++ "/backups")
              env.dirEntries 30 env.removeOk),
            returnValue := "Backup created successfully: "
              ++ (media_root ++ "/backups" ++ "/backup_" ++ env.timestamp ++ ".sql") } := by
    simp [backup_database, hmk, hpre, hrc, hsz]
  refine ⟨_, heq, rfl, rfl, ?_⟩
  intro hy hyok haws
  exact upload_attempts_after_yandex_failure _ _ hy hyok haws

/-- Witness for `upload_failure_nonfatal` at a concrete environment in
which the Yandex.Disk upload fails and the S3 upload succeeds. -/
theorem upload_failure_nonfatal_witness :
    ∃ s, backup_database "media"
      { timestamp := "20240101_000000", makedirsExc := none,
        preSubprocessExc := none, db := ⟨"h", "u", "n", "p"⟩,
        runResult := ⟨0, ""⟩, duration := 2,
        getsize := .ok 2048, cloudCfg := ⟨some "t", true⟩, cloudEnv := ⟨false, true⟩,
        dirEntries := [], removeOk := fun _ => true } = .ok s ∧
      s.logs = [⟨"media/backups/backup_20240101_000000.sql", some 2048,
                 "success", none, some 2⟩] ∧
      s.cleanupDeleted = some (cleanup_old_backups "media/backups" [] 30 (fun _ => true)) ∧
      (((⟨some "t", true⟩ : CloudConfig).yandexToken.isSome = true →
        ((⟨false, true⟩ : CloudEnv)).yandexUploadOk = false →
        ((⟨some "t", true⟩ : CloudConfig)).awsConfigured = true →
        s.uploadAttempts = [⟨Backend.yandex, false⟩, ⟨Backend.s3, true⟩]) ) :=
  upload_failure_nonfatal "media"
    { timestamp := "20240101_000000", makedirsExc := none,
      preSubprocessExc := none, db := ⟨"h", "u", "n", "p"⟩,
      runResult := ⟨0, ""⟩, duration := 2,
      getsize := .ok 2048, cloudCfg := ⟨some "t", true⟩, cloudEnv := ⟨false, true⟩,
      dirEntries := [], removeOk := fun _ => true }
    2048 rfl rfl rfl rfl

/-- Claim C8: the dump command passes host, user, database name and
output path as arguments, while the password is supplied to the
subprocess only through the `PGPASSWORD` environment variable; provided
the password differs from the other connection parameters, the path and
the literal flags, it does not occur among the command-line arguments. -/
theorem password_via_env_only (media_root : String) (env : OrchestratorEnv)
    (hmk : env.makedirsExc = none) (hpre : env.preSubprocessExc = none)
    (h1 : env.db.password ≠ "pg_dump") (h2 : env.db.password ≠ "-h")
    (h3 : env.db.password ≠ "-U") (h4 : env.db.password ≠ "-d")
    (h5 : env.db.password ≠ "-f") (h6 : env.db.password ≠ env.db.host)
    (h7 : env.db.password ≠ env.db.user) (h8 : env.db.password ≠ env.db.name)
    (h9 : env.db.password ≠
      media_root ++ "/backups" ++ "/backup_" ++ env.timestamp ++ ".sql") :
    ∃ s, backup_database media_root env = .ok s ∧
      s.invokedCmd = some (dumpCmd env.db
        (media_root ++ "/backups" ++ "/backup_" ++ env.timestamp ++ ".sql")) ∧
      s.pgpassword = some env.db.password ∧
      env.db.password ∉ dumpCmd env.db
        (media_root ++ "/backups" ++ "/backup_" ++ env.timestamp ++ ".sql") := by
  have hnotin : env.db.password ∉ dumpCmd env.db
      (media_root ++ "/backups" ++ "/backup_" ++ env.timestamp ++ ".sql") := by
    simp [dumpCmd, h1, h2, h3, h4, h5, h6, h7, h8, h9]
  by_cases hrc : env.runResult.returncode = 0
  · cases hsz : env.getsize with
    | error msg =>
      have heq : backup_database media_root env =
          .ok { logs := [⟨media_root ++ "/backups" ++ "/backup_" ++ env.timestamp ++ ".sql",
                          none, "error", some msg, none⟩],
                invokedCmd := some (dumpCmd env.db
                  (media_root ++ "/backups" ++ "/backup_" ++ env.timestamp ++ ".sql")),
                pgpassword := some env.db.password,
                uploadAttempts := [], cleanupDeleted := none,
                returnValue := "Backup failed: " ++ msg } := by
        simp [backup_database, hmk, hpre, hrc, hsz]
      exact ⟨_, heq, rfl, rfl, hnotin⟩
    | ok sz =>
      have heq : backup_database media_root env =
          .ok { logs := [⟨media_root ++ "/backups" ++ "/backup_" ++ env.timestamp ++ ".sql",
                          some sz, "success", none, some env.duration⟩],
                invokedCmd := some (dumpCmd env.db
                  (media_root ++ "/backups" ++ "/backup_" ++ env.timestamp ++ ".sql")),
                pgpassword := some env.db.password,
                uploadAttempts := (upload_to_cloud env.cloudCfg env.cloudEnv).2,
                cleanupDeleted := some (cleanup_old_backups (media_root ++ "/backups")
                  env.dirEntries 30 env.removeOk),
                returnValue := "Backup created successfully: "
                  ++ (media_root ++ "/backups" ++ "/backup_" ++ env.timestamp ++ ".sql") } := by
        simp [backup_database, hmk, hpre, hrc, hsz]
      exact ⟨_, heq, rfl, rfl, hnotin⟩
  · have heq : backup_database media_root env =
        .ok { logs := [⟨media_root ++ "/backups" ++ "/backup_" ++ env.timestamp ++ ".sql",
                        none, "error", some env.runResult.stderr, none⟩],
              invokedCmd := some (dumpCmd env.db
                (media_root ++ "/backups" ++ "/backup_" ++ env.timestamp ++ ".sql")),
              pgpassword := some env.db.password,
              uploadAttempts := [], cleanupDeleted := none,
              returnValue := "Backup failed: " ++ env.runResult.stderr } := by
      simp [backup_database, hmk, hpre, hrc]
    exact ⟨_, heq, rfl, rfl, hnotin⟩

/-- Witness for `password_via_env_only` at a concrete environment. -/
theorem password_via_env_only_witness :
    ∃ s, backup_database "media"
      { timestamp := "20240101_000000", makedirsExc := none,
        preSubprocessExc := none, db := ⟨"dbhost", "dbuser", "dbname", "s3cret"⟩,
        runResult := ⟨0, ""⟩, duration := 2,
        getsize := .ok 2048, cloudCfg := ⟨none, false⟩, cloudEnv := ⟨false, false⟩,
        dirEntries := [], removeOk := fun _ => true } = .ok s ∧
      s.invokedCmd = some (dumpCmd ⟨"dbhost", "dbuser", "dbname", "s3cret"⟩
        "media/backups/backup_20240101_000000.sql") ∧
      s.pgpassword = some "s3cret" ∧
      "s3cret" ∉ dumpCmd ⟨"dbhost", "dbuser", "dbname", "s3cret"⟩
        "media/backups/backup_20240101_000000.sql" :=
  password_via_env_only "media"
    { timestamp := "20240101_000000", makedirsExc := none,
      preSubprocessExc := none, db := ⟨"dbhost", "dbuser", "dbname", "s3cret"⟩,
      runResult := ⟨0, ""⟩, duration := 2,
      getsize := .ok 2048, cloudCfg := ⟨none, false⟩, cloudEnv := ⟨false, false⟩,
      dirEntries := [], removeOk := fun _ => true }
    rfl rfl (by decide) (by decide) (by decide)
    (by decide) (by decide) (by decide) (by decide) (by decide) (by decide)

/-- When every removal succeeds, the deletion loop deletes its whole
input list. -/
theorem deleteLoop_all (removeOk : String → Bool) (h : ∀ f, removeOk f = true) :
    ∀ l : List String, deleteLoop removeOk l = l := by
  intro l
  induction l with
  | nil => rfl
  | cons f rest ih => simp [deleteLoop, h f, ih]

/-- Claim C6: after a successful backup, retention over the matching
local artifacts (prefix `backup_`, extension `.sql`) sorted ascending by
modification time deletes all but the most recent 30: when more than 30
match, exactly the oldest `length - 30` are removed (every deleted entry
is no newer than every kept one); with 36 matching files exactly 6 are
deleted; with at most 30 nothing is deleted. -/
theorem retention_keeps_latest (backup_dir : String) (entries : List FsEntry)
    (removeOk : String → Bool) (hok : ∀ f, removeOk f = true) :
    (30 < (matchingBackups entries).length →
      cleanup_old_backups backup_dir entries 30 removeOk
        = (((matchingBackups entries).insertionSort mtimeLe).take
            ((matchingBackups entries).length - 30)).map
            (fun e => backup_dir ++ "/" ++ e.name) ∧
      ∀ a ∈ ((matchingBackups entries).insertionSort mtimeLe).take
            ((matchingBackups entries).length - 30),
      ∀ b ∈ ((matchingBackups entries).insertionSort mtimeLe).drop
            ((matchingBackups entries).length - 30), a.mtime ≤ b.mtime) ∧
    ((matchingBackups entries).length ≤ 30 →
      cleanup_old_backups backup_dir entries 30 removeOk = []) ∧
    ((matchingBackups entries).length = 36 →
      (cleanup_old_backups backup_dir entries 30 removeOk).length = 6) := by
  have hlen : ((matchingBackups entries).insertionSort mtimeLe).length
      = (matchingBackups entries).length :=
    (List.perm_insertionSort mtimeLe (matchingBackups entries)).length_eq
  have heq : ∀ _ : 30 < (matchingBackups entries).length,
      cleanup_old_backups backup_dir entries 30 removeOk
        = (((matchingBackups entries).insertionSort mtimeLe).take
            ((matchingBackups entries).length - 30)).map
            (fun e => backup_dir ++ "/" ++ e.name) := by
    intro hgt
    have hcond : 30 < ((matchingBackups entries).insertionSort mtimeLe).length := by
      rw [hlen]; exact hgt
    simp only [cleanup_old_backups, if_pos hcond, pyDropLast]
    rw [if_neg (by decide : ¬(30 = 0)), hlen]
    exact deleteLoop_all removeOk hok _
  refine ⟨fun hgt => ⟨heq hgt, ?_⟩, fun hle => ?_, fun h36 => ?_⟩
  · intro a ha b hb
    have hs : List.Pairwise mtimeLe
        ((matchingBackups entries).insertionSort mtimeLe) :=
      List.sorted_insertionSort mtimeLe (matchingBackups entries)
    rw [← List.take_append_drop ((matchingBackups entries).length - 30)
      ((matchingBackups entries).insertionSort mtimeLe)] at hs
    obtain ⟨-, -, hab⟩ := List.pairwise_append.mp hs
    exact hab a ha b hb
  · have hcond : ¬ 30 < ((matchingBackups entries).insertionSort mtimeLe).length := by
      rw [hlen]; omega
    simp only [cleanup_old_backups, if_neg hcond]
  · rw [heq (by omega)]
    simp only [List.length_map, List.length_take, hlen, h36]
    omega

/-- Witness for `retention_keeps_latest`: a backup directory holding 36
matching artifacts loses exactly 6 of them. -/
theorem retention_keeps_latest_witness :
    (cleanup_old_backups "d"
      ((List.range 36).map (fun i => ⟨"backup_" ++ toString i ++ ".sql", i, true⟩))
      30 (fun _ => true)).length = 6 :=
  (retention_keeps_latest "d"
    ((List.range 36).map (fun i => ⟨"backup_" ++ toString i ++ ".sql", i, true⟩))
    (fun _ => true) (fun _ => rfl)).2.2 (by decide)

/-- Claim C9: CSV export emits the display names first and then one
record per row with the cells in source-field order, so the record count
is the row count plus one; a many-to-many cell joins its elements with
`", "` (in particular two elements join with a single separator and no
trailing one), `None` becomes the empty string, and a `Decimal` renders
as its canonical string form. -/
theorem csv_structure (queryset : List Item) (fields field_names : List String) :
    (export_to_csv queryset fields field_names).length = queryset.length + 1 ∧
    (export_to_csv queryset fields field_names).head? = some field_names ∧
    (export_to_csv queryset fields field_names).tail
      = queryset.map (fun item => fields.map (csvCell item)) ∧
    (∀ item : Item, ∀ f : String, ∀ vs : List PyValue,
      getattrD item f (PyValue.vStr "") = PyValue.vMany vs →
      csvCell item f = String.intercalate ", " (vs.map pyStr)) ∧
    (∀ item : Item, ∀ f : String, ∀ v1 v2 : PyValue,
      getattrD item f (PyValue.vStr "") = PyValue.vMany [v1, v2] →
      csvCell item f = pyStr v1 ++ ", " ++ pyStr v2) ∧
    (∀ item : Item, ∀ f : String,
      getattrD item f (PyValue.vStr "") = PyValue.vNone → csvCell item f = "") ∧
    (∀ item : Item, ∀ f : String, ∀ d : PyDecimal,
      getattrD item f (PyValue.vStr "") = PyValue.vDecimal d →
      csvCell item f = d.canonical) := by
  refine ⟨by simp [export_to_csv], rfl, rfl, ?_, ?_, ?_, ?_⟩
  · intro item f vs h
    simp [csvCell, h]
  · intro item f v1 v2 h
    simp [csvCell, h, String.intercalate, String.intercalate.go]
  · intro item f h
    simp [csvCell, h]
  · intro item f d h
    simp [csvCell, h]

/-- Witness for `csv_structure`: a one-row queryset with a two-element
many-to-many attribute. -/
theorem csv_structure_witness :
    (export_to_csv [[("authors", PyValue.vMany [PyValue.vStr "A", PyValue.vStr "B"])]]
      ["authors"] ["Авторы"]).length
      = [[("authors", PyValue.vMany [PyValue.vStr "A", PyValue.vStr "B"])]].length + 1 ∧
    csvCell [("authors", PyValue.vMany [PyValue.vStr "A", PyValue.vStr "B"])] "authors"
      = "A, B" :=
  ⟨(csv_structure [[("authors", PyValue.vMany [PyValue.vStr "A", PyValue.vStr "B"])]]
      ["authors"] ["Авторы"]).1,
   (csv_structure [[("authors", PyValue.vMany [PyValue.vStr "A", PyValue.vStr "B"])]]
      ["authors"] ["Авторы"]).2.2.2.2.1
      [("authors", PyValue.vMany [PyValue.vStr "A", PyValue.vStr "B"])]
      "authors" (PyValue.vStr "A") (PyValue.vStr "B") rfl⟩

/-- Claim C10: `upload_to_cloud` returns `True` with only the Yandex.Disk
attempt when that backend is configured and succeeds (S3 is then never
tried); an S3 attempt happens only when Yandex.Disk is unconfigured or
its upload failed; and when no configured backend succeeds the function
returns `False` rather than raising. -/
theorem upload_backend_order (cfg : CloudConfig) (env : CloudEnv) :
    (cfg.yandexToken.isSome = true → env.yandexUploadOk = true →
      upload_to_cloud cfg env = (true, [⟨Backend.yandex, true⟩])) ∧
    (∀ a ∈ (upload_to_cloud cfg env).2, a.backend = Backend.s3 →
      cfg.yandexToken = none ∨ env.yandexUploadOk = false) ∧
    ((cfg.yandexToken.isSome = true → env.yandexUploadOk = false) →
     (cfg.awsConfigured = true → env.s3UploadOk = false) →
      (upload_to_cloud cfg env).1 = false) := by
  obtain ⟨yt, aws⟩ := cfg
  obtain ⟨yok, sok⟩ := env
  cases yt <;> cases aws <;> cases yok <;> cases sok <;>
    simp_all [upload_to_cloud, s3Attempt]

/-- Witness for `upload_backend_order`: with both backends configured and
succeeding, only the Yandex.Disk attempt is made. -/
theorem upload_backend_order_witness :
    upload_to_cloud ⟨some "token", true⟩ ⟨true, true⟩
      = (true, [⟨Backend.yandex, true⟩]) :=
  (upload_backend_order ⟨some "token", true⟩ ⟨true, true⟩).1 rfl rfl

end ElectronicLibrary
